import Mathlib

/-!
Shallow embedding of the blog-search URL→content pipeline (Go) in Lean 4.

The embedding covers:
* the URL filters and filter composition (`pkg/urls` filters, `BasicUrlFetcher`);
* the `PageRangeGenerator` pagination loop;
* the staged pipeline orchestrator (`Pipeline.Run` and its dataflow);
* the sitemap adapter (`pkg/sitemap.Parser.ParseFromURL`);
* the HTTP content processor soft-error classification.

External effects (HTTP responses, URL parsing, XML decoding, extraction) are
passed in as explicit oracle functions, so every definition is executable.
Go functions returning `(value, error)` are modelled as `value × Option GoErr`
when the value part is meaningful alongside the error, and as `Except GoErr`
when the value is discarded on error.
-/

namespace BlogSearch

/-- Go `error` values, identified by their message text. -/
abbrev GoErr := String

/-- The character list `needle` occurs at the start of `hay`. -/
def startsWithChars : List Char → List Char → Bool
  | [], _ => true
  | _ :: _, [] => false
  | a :: as, b :: bs => a = b && startsWithChars as bs

/-- The character list `needle` occurs contiguously anywhere in `hay`. -/
def hasSubstringAux (needle : List Char) : List Char → Bool
  | [] => needle.isEmpty
  | c :: rest => startsWithChars needle (c :: rest) || hasSubstringAux needle rest

/-- Go `strings.Contains s pat`: `pat` occurs as a contiguous substring of
`s` (the empty pattern is always contained). -/
def goContains (s pat : String) : Bool :=
  hasSubstringAux pat.toList s.toList

/-- Go `strings.Trim s "/"`: strip leading and trailing `'/'` characters. -/
def trimSlashes (s : String) : String :=
  ⟨((s.toList.dropWhile (· = '/')).reverse.dropWhile (· = '/')).reverse⟩

/-- Go `strings.TrimSpace`: strip leading and trailing whitespace
(modelled with Lean's whitespace class, which covers the ASCII whitespace
appearing in the repository's inputs). -/
def goTrimSpace (s : String) : String :=
  ⟨((s.toList.dropWhile Char.isWhitespace).reverse.dropWhile
      Char.isWhitespace).reverse⟩

/-- Go `strings.ToLower` restricted to ASCII case folding, which covers the
repository's marker strings and response bodies. -/
def goToLower (s : String) : String :=
  ⟨s.toList.map Char.toLower⟩

/-! ## URL filters (`pkg/urls`, `part_008`) -/

/-- A `urls.UrlFilter`: `ShouldKeep(ctx, url)` returns `(bool, error)`.
The context is never consulted by the built-ins, so it is elided. -/
abbrev UrlFilter := String → Bool × Option GoErr

/-- `BaseURLFilter.ShouldKeep`.  Go's `url.Parse` is an oracle
`parse : String → Option String` returning the parsed path (`none` for a
parse failure).  On parse failure the URL is kept; otherwise it is kept
iff the path trimmed of `'/'` is non-empty. -/
def baseURLFilter (parse : String → Option String) : UrlFilter :=
  fun urlStr =>
    match parse urlStr with
    | none => (true, none)
    | some path => (trimSlashes path ≠ "", none)

/-- `AlreadyFetchedFilter.ShouldKeep`: keep iff the URL is not in the
seeded `fetchedURLs` set. -/
def alreadyFetchedFilter (fetchedURLs : String → Bool) : UrlFilter :=
  fun urlStr => (!(fetchedURLs urlStr), none)

/-- `ContainsPathFilter.ShouldKeep`: keep iff the URL string contains the
configured path segment. -/
def containsPathFilter (pathSegment : String) : UrlFilter :=
  fun urlStr => (goContains urlStr pathSegment, none)

/-! ## `BasicUrlFetcher` (`part_005`) -/

/-- A `urls.URL` record: location and optional title. -/
structure GoURL where
  location : String
  title : String
deriving Repr, DecidableEq

/-- `BasicUrlFetcher`: wraps a `urls.URLsFetcher` oracle and a filter list. -/
structure BasicUrlFetcher where
  fetcher : String → Except GoErr (List GoURL)
  filters : List UrlFilter

/-- `BasicUrlFetcher.extractLocations`: non-empty `Location` fields, in order. -/
def extractLocations (us : List GoURL) : List String :=
  us.filterMap (fun u => if u.location ≠ "" then some u.location else none)

/-- `BasicUrlFetcher.shouldKeepURL`: run the filters in order; the first
error returns `(false, err)`, the first `false` returns `(false, nil)`,
otherwise `(true, nil)`. -/
def shouldKeepURL (filters : List UrlFilter) (urlStr : String) :
    Bool × Option GoErr :=
  match filters with
  | [] => (true, none)
  | f :: rest =>
    let r := f urlStr
    match r.2 with
    | some err => (false, some err)
    | none => if !r.1 then (false, none) else shouldKeepURL rest urlStr

/-- `BasicUrlFetcher.applyFilters`: keep the URLs passing all filters; a
filter error for any URL aborts with that error wrapped. -/
def applyFilters (filters : List UrlFilter) (result : List String) :
    Except GoErr (List String) :=
  match result with
  | [] => .ok []
  | u :: rest =>
    let r := shouldKeepURL filters u
    match r.2 with
    | some err => .error ("filter error: " ++ err)
    | none =>
      match applyFilters filters rest with
      | .error e => .error e
      | .ok tail => .ok (if r.1 then u :: tail else tail)

/-- `BasicUrlFetcher.Fetch`: fetch raw URLs, keep non-empty locations, then
apply the filters (skipped entirely when the filter list is empty). -/
def BasicUrlFetcher.fetch (f : BasicUrlFetcher) (baseURL : String) :
    Except GoErr (List String) :=
  match f.fetcher baseURL with
  | .error e => .error ("failed to fetch URLs: " ++ e)
  | .ok us =>
    let result := extractLocations us
    if f.filters.isEmpty then .ok result
    else
      match applyFilters f.filters result with
      | .error e => .error e
      | .ok filtered => .ok filtered

/-! ## `PageRangeGenerator` (`part_005`) -/

/-- Oracle for the HTTP traffic of the pagination generator, indexed by page
number (the page URL is a bijective function of the page number):
`headStatus k` is the HEAD response status for page `k` (error = transport
failure), `getPage k` is the GET status and body used by the content check. -/
structure PageOracle where
  headStatus : Nat → Except GoErr Nat
  getPage : Nat → Except GoErr (Nat × String)

/-- `PageRangeGenerator` configuration.  Go builds page URLs as
`baseURL + fmt.Sprintf(pagePattern, page)` where the pattern contains one
`%d` placeholder; the pattern is represented by the text before and after
the placeholder. -/
structure PageRangeGenerator where
  baseURL : String
  patternPre : String
  patternPost : String
  emptyContentMarkers : List String

/-- `NewPageRangeGenerator`: default empty-content marker list. -/
def mkPageRangeGenerator (baseURL patternPre patternPost : String) :
    PageRangeGenerator :=
  { baseURL := baseURL, patternPre := patternPre, patternPost := patternPost,
    emptyContentMarkers := ["0 episodes found"] }

/-- `PageRangeGenerator.buildPageURL`. -/
def buildPageURL (g : PageRangeGenerator) (pageNum : Nat) : String :=
  g.baseURL ++ g.patternPre ++ toString pageNum ++ g.patternPost

/-- `PageRangeGenerator.checkPageExists`: HEAD the page; transport error is
returned, otherwise the page exists iff status 200. -/
def checkPageExists (o : PageOracle) (page : Nat) : Except GoErr Bool :=
  match o.headStatus page with
  | .error e => .error e
  | .ok st => .ok (st == 200)

/-- `PageRangeGenerator.checkPageContent`: GET the page; non-200 or transport
failure is an error; otherwise the page "has content" iff no configured
marker occurs (case-insensitively) in the body. -/
def checkPageContent (g : PageRangeGenerator) (o : PageOracle) (page : Nat) :
    Except GoErr Bool :=
  match o.getPage page with
  | .error e => .error ("failed to fetch page: " ++ e)
  | .ok (st, body) =>
    if st ≠ 200 then .error ("unexpected status code: " ++ toString st)
    else
      let bodyStr := goToLower body
      .ok (!(g.emptyContentMarkers.any (fun m => goContains bodyStr (goToLower m))))

/-- `PageRangeGenerator.shouldStopDueToEmptyContent`: content-check errors
are swallowed (continue); stop iff a marker was found. -/
def shouldStopDueToEmptyContent (g : PageRangeGenerator) (o : PageOracle)
    (page : Nat) : Bool × Option GoErr :=
  match checkPageContent g o page with
  | .error _ => (false, none)
  | .ok hasContent => (!hasContent, none)

/-- `PageRangeGenerator.shouldStopPagination`: stop on HEAD error (with the
error), on non-200 HEAD, and on the content check at page multiples of 10. -/
def shouldStopPagination (g : PageRangeGenerator) (o : PageOracle)
    (page : Nat) : Bool × Option GoErr :=
  match checkPageExists o page with
  | .error e => (true, some e)
  | .ok ex =>
    if !ex then (true, none)
    else if page % 10 == 0 then shouldStopDueToEmptyContent g o page
    else (false, none)

/-- `PageRangeGenerator.Generate` loop body.  `cancel p` models
`ctx.Done()` being closed when the loop reaches page `p`; on cancellation
the accumulated URLs are returned together with `ctx.Err()`.  The Go loop
is unbounded, so the recursion is driven by explicit `fuel`; theorems
always supply enough fuel to reach the stopping page. -/
def generateAux (g : PageRangeGenerator) (o : PageOracle)
    (cancel : Nat → Bool) :
    Nat → Nat → List String → List String × Option GoErr
  | 0, _, acc => (acc, none)
  | fuel + 1, page, acc =>
    if cancel page then (acc, some "context canceled")
    else
      let pageURL := buildPageURL g page
      let r := shouldStopPagination g o page
      if r.2.isSome || r.1 then (acc, none)
      else generateAux g o cancel fuel (page + 1) (acc ++ [pageURL])

/-- `PageRangeGenerator.Generate`: loop from page 1. -/
def generate (g : PageRangeGenerator) (o : PageOracle) (cancel : Nat → Bool)
    (fuel : Nat) : List String × Option GoErr :=
  generateAux g o cancel fuel 1 []

/-- Spec-side predicate: the HEAD for page `k` returned 200. -/
def headOK (o : PageOracle) (k : Nat) : Bool :=
  match o.headStatus k with
  | .ok st => st == 200
  | .error _ => false

/-- Spec-side predicate: the content check at page `k` found an
empty-content marker (a failed content check finds nothing). -/
def markerFound (g : PageRangeGenerator) (o : PageOracle) (k : Nat) : Bool :=
  match checkPageContent g o k with
  | .ok hasContent => !hasContent
  | .error _ => false

/-- Spec-side predicate: page `k` survives pagination — its HEAD returned
200, and if `k` is a multiple of 10 the content check found no marker. -/
def pageOK (g : PageRangeGenerator) (o : PageOracle) (k : Nat) : Bool :=
  headOK o k && (k % 10 != 0 || !markerFound g o k)

/-! ## Pipeline orchestrator (`part_006`) -/

/-- `domain.Article` as observed by the pipeline (`CrawledAt` is set by the
content processor oracle and modelled as data). -/
structure Article where
  url : String
  title : String
  text : String
deriving Repr, DecidableEq

/-- `pipeline.PipelineStep`: first step may carry a `Generator`, any step a
`Fetcher`.  Adapters are functions; a Go `([]string, error)` return is a
pair.  The generator's context argument is elided: cancellation shows up
only through the returned error. -/
structure PipelineStep where
  name : String
  workerCount : Nat
  generator : Option (Unit → List String × Option GoErr)
  fetcher : Option (String → List String × Option GoErr)
deriving Inhabited

/-- `pipeline.ContentConsumer`. -/
structure ContentConsumer where
  workerCount : Nat
  contentProcessor : Option (String → Except GoErr Article)
  contentSaver : Option (Article → Option GoErr)

/-- `pipeline.Pipeline`. -/
structure Pipeline where
  steps : List PipelineStep
  contentConsumer : ContentConsumer

/-- `Pipeline.createChannels`: the buffer capacity of each per-step channel
(`channels[i]`) and of the sink channel.  `channels[i]` gets
`steps[i].WorkerCount * 2`, overridden to `100` for `i = 0`; the sink
channel gets `2 × sink.WorkerCount`. -/
def createChannelCapacities (p : Pipeline) : List Nat × Nat :=
  ((List.range p.steps.length).map
      (fun i =>
        let bufferSize := 2 * (p.steps.getD i default).workerCount
        if i = 0 then 100 else bufferSize),
    2 * p.contentConsumer.workerCount)

/-- `Pipeline.generateOrFetchURLs`: the first step runs its Generator if
set, else its Fetcher on the base URL, else fails; an adapter error
discards any URLs returned alongside it. -/
def generateOrFetchURLs (step : PipelineStep) (baseURL : String) :
    Except GoErr (List String) :=
  match step.generator with
  | some g =>
    let r := g ()
    match r.2 with
    | some e => .error e
    | none => .ok r.1
  | none =>
    match step.fetcher with
    | some f =>
      let r := f baseURL
      match r.2 with
      | some e => .error e
      | none => .ok r.1
    | none => .error "neither generator nor fetcher is set"

/-- First-step driver (`startFirstStep`): on adapter error nothing is sent
downstream (the output channel is closed empty); otherwise every URL is
sent.  This is the list of URLs the first step emits. -/
def firstStepURLs (step : PipelineStep) (baseURL : String) : List String :=
  match generateOrFetchURLs step baseURL with
  | .error _ => []
  | .ok urls => urls

/-- One intermediate step's dataflow (`processURLInStep` over all inputs):
each input URL is fetched; a fetch error contributes nothing (per-item
isolation), success contributes the extracted URLs. -/
def stepOutputs (fetch : String → List String × Option GoErr)
    (inputs : List String) : List String :=
  inputs.flatMap (fun url =>
    let r := fetch url
    match r.2 with
    | some _ => []
    | none => r.1)

/-- URLs reaching the sink: the first step's output pushed through every
subsequent step.  This determinizes the concurrent dataflow into one
canonical order; the pipeline guarantees no cross-worker ordering, and the
claims below are order-insensitive.  A later step with no `Fetcher` makes
the Go orchestrator deadlock (its output channel is never closed), so the
model is used only under the hypothesis that all later steps carry one;
the `none` branch is never exercised by the theorems. -/
def sinkURLs (steps : List PipelineStep) (baseURL : String) : List String :=
  match steps with
  | [] => []
  | s0 :: rest =>
    rest.foldl
      (fun acc s =>
        match s.fetcher with
        | some f => stepOutputs f acc
        | none => [])
      (firstStepURLs s0 baseURL)

/-- `Pipeline.processContentURL`: nil checks on processor and saver, then
process then save, each error wrapped. -/
def processContentURL (c : ContentConsumer) (url : String) :
    Except GoErr Article :=
  match c.contentProcessor with
  | none => .error "content processor is not set"
  | some proc =>
    match c.contentSaver with
    | none => .error "content saver is not set"
    | some save =>
      match proc url with
      | .error e => .error ("failed to process content: " ++ e)
      | .ok article =>
        match save article with
        | some e => .error ("failed to save article: " ++ e)
        | none => .ok article

/-- The sink's dataflow (`startContentConsumer`): every URL is processed;
failures are logged and skipped, successes are the saved articles. -/
def consumeURLs (c : ContentConsumer) (urls : List String) : List Article :=
  urls.filterMap (fun url =>
    match processContentURL c url with
    | .ok a => some a
    | .error _ => none)

/-- Articles saved by a whole pipeline run. -/
def savedArticles (p : Pipeline) (baseURL : String) : List Article :=
  consumeURLs p.contentConsumer (sinkURLs p.steps baseURL)

/-- `Pipeline.Run`, determinized: the returned error (`nil` unless the spec
has zero steps — every other failure is absorbed before `Run` returns)
paired with the articles saved during the run.  Faithful for pipelines
whose later steps all carry a `Fetcher` (see `sinkURLs`). -/
def runModel (p : Pipeline) (baseURL : String) :
    Option GoErr × List Article :=
  if p.steps.isEmpty then (some "pipeline has no steps", [])
  else (none, savedArticles p baseURL)

/-! ## Sitemap adapter (`pkg/sitemap/sitemap.go`) -/

/-- A `sitemap.Entry`. -/
structure Entry where
  location : String
  lastMod : String
  priority : String
  changeFreq : String
deriving Repr, DecidableEq

/-- The outcome of fetching and decoding one sitemap URL, as seen by
`ParseFromURL`: a decoded `<sitemapindex>` (raw child `<loc>` values), a
decoded `<urlset>` (raw entries, locations possibly empty), or a decode
failure.  Transport failures, non-200 statuses and read failures are the
`Except` error of the oracle. -/
inductive SitemapDoc where
  | index (locs : List String)
  | urlset (entries : List Entry)
  | malformed (e : GoErr)
deriving Repr

/-- `Parser.parseSitemapIndex` applied to a decoded index: keep the
non-empty child locations, in order. -/
def parseSitemapIndexLocs (locs : List String) : List String :=
  locs.filter (fun l => l ≠ "")

/-- `Parser.parseSitemap` applied to a decoded urlset: keep the entries
with non-empty `Location`, in order. -/
def parseSitemapEntries (entries : List Entry) : List Entry :=
  entries.filter (fun e => e.location ≠ "")

/-- `Parser.ParseFromURL`.  `fetchDoc` is the HTTP-fetch-plus-decode
oracle.  A sitemap index with no child URLs, and an index whose children
collectively yield no entries, are errors; child errors are skipped.  A
plain urlset is returned as parsed — empty or not.  The Go recursion is
unbounded (an index may reference itself), so recursion depth is driven by
`fuel`; theorems supply enough fuel for the tree at hand. -/
def parseFromURL (fetchDoc : String → Except GoErr SitemapDoc) :
    Nat → String → Except GoErr (List Entry)
  | 0, _ => .error "recursion limit reached"
  | fuel + 1, sitemapURL =>
    match fetchDoc sitemapURL with
    | .error e => .error ("failed to fetch sitemap: " ++ e)
    | .ok (.malformed e) => .error ("failed to decode sitemap XML: " ++ e)
    | .ok (.index locs) =>
      let sitemapURLs := parseSitemapIndexLocs locs
      if sitemapURLs.isEmpty then
        .error "sitemap index contained no sitemap URLs"
      else
        let allEntries := sitemapURLs.flatMap (fun su =>
          match parseFromURL fetchDoc fuel su with
          | .error _ => []
          | .ok es => es)
        if allEntries.isEmpty then
          .error "no entries found in any sitemap from index"
        else .ok allEntries
    | .ok (.urlset entries) => .ok (parseSitemapEntries entries)

/-! ## HTTP content processor (`part_005`) -/

/-- `HTTPContentProcessor.fetchHTML`.  `get` is the HTTP GET oracle
returning status and body.  A 200 body is rejected as a soft error when it
contains `"Not Acceptable"` or is empty after trimming. -/
def fetchHTML (get : String → Except GoErr (Nat × String)) (url : String) :
    Except GoErr String :=
  match get url with
  | .error e => .error ("failed to fetch URL: " ++ e)
  | .ok (st, body) =>
    if st ≠ 200 then .error ("unexpected status code: " ++ toString st)
    else if goContains body "Not Acceptable" || goTrimSpace body = "" then
      .error ("server returned error or empty response (status: " ++
        toString st ++ ")")
    else .ok body

/-- `HTTPContentProcessor.ProcessContent` with the default (package-level)
extraction functions passed as oracles, and the crawl timestamp elided
(the `Article` model carries no time).  Extraction runs text first, then
title, each failure wrapped. -/
def processContent (get : String → Except GoErr (Nat × String))
    (extractText extractTitle : String → Except GoErr String)
    (url : String) : Except GoErr Article :=
  match fetchHTML get url with
  | .error e => .error ("failed to fetch HTML: " ++ e)
  | .ok htmlContent =>
    match extractText htmlContent with
    | .error e => .error ("failed to extract text: " ++ e)
    | .ok text =>
      match extractTitle htmlContent with
      | .error e => .error ("failed to extract title: " ++ e)
      | .ok title => .ok { url := url, title := title, text := text }

/-! ## Concrete instances used in witnesses and counterexamples -/

/-- A step-level `Fetcher` wrapping a `BasicUrlFetcher`, as the pipeline
builders do: on error the URL slice is nil. -/
def stepOfBasicFetcher (name : String) (w : Nat) (f : BasicUrlFetcher) :
    PipelineStep :=
  { name := name, workerCount := w, generator := none,
    fetcher := some (fun url =>
      match f.fetch url with
      | .ok us => (us, none)
      | .error e => ([], some e)) }

/-- A one-step pipeline whose first step has neither Generator nor Fetcher
and whose sink has neither processor nor saver. -/
def pipelineNoFirstAdapter : Pipeline :=
  { steps := [{ name := "first", workerCount := 1, generator := none,
                fetcher := none }],
    contentConsumer :=
      { workerCount := 1, contentProcessor := none, contentSaver := none } }

/-- A one-step pipeline whose source yields one URL but whose sink is
missing the saver. -/
def pipelineNoSaver : Pipeline :=
  { steps := [{ name := "first", workerCount := 1, generator := none,
                fetcher := some (fun _ => (["https://ex.com/a1"], none)) }],
    contentConsumer :=
      { workerCount := 1,
        contentProcessor :=
          some (fun u => .ok { url := u, title := "t", text := "x" }),
        contentSaver := none } }

/-- Scenario S6 content processor: fails on the second URL only. -/
def procS6 : String → Except GoErr Article := fun u =>
  if u = "https://ex.com/u2" then .error "processor failure"
  else .ok { url := u, title := "title", text := "body" }

/-- Scenario S6 sink: the processor above plus an always-succeeding saver. -/
def consumerS6 : ContentConsumer :=
  { workerCount := 1, contentProcessor := some procS6,
    contentSaver := some (fun _ => none) }

/-- Scenario S6 input URLs. -/
def urlsS6 : List String :=
  ["https://ex.com/u1", "https://ex.com/u2", "https://ex.com/u3",
   "https://ex.com/u4"]

/-- Scenario S6 pipeline: single source step feeding the sink. -/
def pipelineS6 : Pipeline :=
  { steps := [{ name := "source", workerCount := 1, generator := none,
                fetcher := some (fun _ => (urlsS6, none)) }],
    contentConsumer := consumerS6 }

/-- Pagination generator used by the C3 witness. -/
def prgC3 : PageRangeGenerator :=
  mkPageRangeGenerator "https://ex.com" "/page/" ""

/-- Oracle for the C3 witness: every HEAD is 200; the GET body at page 10
carries the default empty-content marker in mixed case. -/
def oraC3 : PageOracle :=
  { headStatus := fun _ => .ok 200,
    getPage := fun k =>
      .ok (200, if k = 10 then "<div>0 Episodes Found</div>"
        else "<div>many episodes</div>") }

/-- Seed set for the C4 witness. -/
def seedC4 : String → Bool := fun u => u = "https://ex.com/a1"

/-- Basic fetcher for the C4 witness: source yields a known and a fresh
URL; the already-fetched filter is installed. -/
def bfC4 : BasicUrlFetcher :=
  { fetcher := fun _ =>
      .ok [{ location := "https://ex.com/a1", title := "" },
        { location := "https://ex.com/a5", title := "" }],
    filters := [alreadyFetchedFilter seedC4] }

/-- Document oracle for the C5 witness: an index referencing one child
urlset with one entry. -/
def fetchDocC5 : String → Except GoErr SitemapDoc := fun u =>
  if u = "https://ex.com/sitemap-index.xml" then
    .ok (.index ["https://ex.com/s1.xml"])
  else .ok (.urlset [{ location := "https://ex.com/a1", lastMod := "",
                       priority := "", changeFreq := "" }])

/-- A 200 body that contains `"Not Acceptable"` as a proper substring but
is neither empty nor equal to `"Not Acceptable"` after trimming. -/
def bodyC6 : String := "<html><body>Not Acceptable to everyone</body></html>"

/-- Basic fetcher for the C7 witness: two URLs, one dropped by the
contains-path filter. -/
def bfC7 : BasicUrlFetcher :=
  { fetcher := fun _ =>
      .ok [{ location := "https://ex.com/blog/a1", title := "" },
        { location := "https://ex.com/about", title := "" }],
    filters := [containsPathFilter "/blog"] }

/-- Pipeline for the C8 counterexample: three stages with worker counts
1, 60, 1 and a sink with 1 worker. -/
def pipelineC8 : Pipeline :=
  { steps := [⟨"s0", 1, none, none⟩, ⟨"s1", 60, none, none⟩,
      ⟨"s2", 1, none, none⟩],
    contentConsumer := ⟨1, none, none⟩ }

/-- Pagination generator for the C9 scenario. -/
def prgC9 : PageRangeGenerator :=
  mkPageRangeGenerator "https://ex.com" "/page/" ""

/-- Oracle for the C9 scenario: every page exists with content. -/
def oraC9 : PageOracle :=
  { headStatus := fun _ => .ok 200,
    getPage := fun _ => .ok (200, "<div>many episodes</div>") }

/-- Cancellation signal firing from page 3 on. -/
def cancelAt3 : Nat → Bool := fun p => decide (3 ≤ p)

/-- Pipeline for the C9 counterexample: the page-range generator gets
cancelled at page 3; sink adapters always succeed. -/
def pipelineC9 : Pipeline :=
  { steps := [{ name := "gen", workerCount := 1,
                generator := some (fun _ => generate prgC9 oraC9 cancelAt3 20),
                fetcher := none }],
    contentConsumer :=
      { workerCount := 1,
        contentProcessor :=
          some (fun u => .ok { url := u, title := "t", text := "x" }),
        contentSaver := some (fun _ => none) } }

/-! ## Helper lemmas on filter composition -/

/-- `shouldKeepURL` answers `(true, nil)` exactly when every filter in the
list answers `(true, nil)` on the URL. -/
theorem shouldKeepURL_eq_true_iff (filters : List UrlFilter) (u : String) :
    shouldKeepURL filters u = (true, none) ↔
      ∀ f ∈ filters, f u = (true, none) := by
  induction filters with
  | nil => simp [shouldKeepURL]
  | cons f rest ih =>
    rcases hfu : f u with ⟨keep, err⟩
    cases err with
    | some e => simp [shouldKeepURL, hfu]
    | none =>
      cases keep with
      | false => simp [shouldKeepURL, hfu]
      | true => simp [shouldKeepURL, hfu, ih]

/-- When no URL in the list triggers a filter error, `applyFilters` keeps
exactly the URLs on which `shouldKeepURL` answers `true`, in order. -/
theorem applyFilters_ok_of_noError (filters : List UrlFilter)
    (l : List String) (h : ∀ u ∈ l, (shouldKeepURL filters u).2 = none) :
    applyFilters filters l =
      .ok (l.filter (fun u => (shouldKeepURL filters u).1)) := by
  induction l with
  | nil => simp [applyFilters]
  | cons x rest ih =>
    have hx := h x (by simp)
    have hr := ih (fun u hu => h u (by simp [hu]))
    rcases hsk : shouldKeepURL filters x with ⟨keep, err⟩
    rw [hsk] at hx
    simp only at hx
    subst hx
    cases keep with
    | false => simp [applyFilters, hsk, hr, List.filter_cons]
    | true => simp [applyFilters, hsk, hr, List.filter_cons]

/-- Every URL surviving `applyFilters` passed every filter without error. -/
theorem shouldKeep_of_mem_applyFilters (filters : List UrlFilter)
    (l out : List String) (u : String)
    (hap : applyFilters filters l = .ok out) (hu : u ∈ out) :
    shouldKeepURL filters u = (true, none) := by
  induction l generalizing out with
  | nil =>
    simp [applyFilters] at hap
    subst hap
    simp at hu
  | cons x rest ih =>
    rcases hsk : shouldKeepURL filters x with ⟨keep, err⟩
    cases err with
    | some e => simp [applyFilters, hsk] at hap
    | none =>
      cases htail : applyFilters filters rest with
      | error e => simp [applyFilters, hsk, htail] at hap
      | ok tail =>
        simp [applyFilters, hsk, htail] at hap
        cases keep with
        | false =>
          subst hap
          exact ih tail htail hu
        | true =>
          subst hap
          rcases List.mem_cons.mp hu with hux | hut
          · subst hux; exact hsk
          · exact ih tail htail hut

/-- If some URL in the list triggers a filter error, `applyFilters` aborts
with a wrapped filter error, the error of some URL in the list. -/
theorem applyFilters_error_of_mem (filters : List UrlFilter)
    (l : List String) (u : String) (e : GoErr) (hu : u ∈ l)
    (he : (shouldKeepURL filters u).2 = some e) :
    ∃ e2, applyFilters filters l = .error ("filter error: " ++ e2) ∧
      ∃ u2 ∈ l, (shouldKeepURL filters u2).2 = some e2 := by
  induction l with
  | nil => simp at hu
  | cons x rest ih =>
    cases hsk : (shouldKeepURL filters x).2 with
    | some ex =>
      exact ⟨ex, by simp [applyFilters, hsk], x, by simp, hsk⟩
    | none =>
      have hur : u ∈ rest := by
        rcases List.mem_cons.mp hu with hux | hut
        · subst hux; rw [he] at hsk; exact absurd hsk (by simp)
        · exact hut
      obtain ⟨e2, hap, u2, hu2, he2⟩ := ih hur
      exact ⟨e2, by simp [applyFilters, hsk, hap], u2, by simp [hu2], he2⟩

/-! ## Helper lemmas on the pagination loop -/

/-- Map with pointwise-equal functions. -/
theorem listMap_ext {α β : Type} (f h : α → β) (l : List α)
    (hfh : ∀ a, f a = h a) : l.map f = l.map h := by
  induction l with
  | nil => rfl
  | cons x xs ih => simp [hfh, ih]

/-- The loop's stop condition (`err != nil || shouldStop`) fires exactly
when the page fails the spec-side predicate `pageOK`. -/
theorem shouldStop_iff_not_pageOK (g : PageRangeGenerator) (o : PageOracle)
    (k : Nat) :
    ((shouldStopPagination g o k).2.isSome || (shouldStopPagination g o k).1)
      = !pageOK g o k := by
  unfold shouldStopPagination checkPageExists pageOK headOK
  cases hh : o.headStatus k with
  | error e => simp
  | ok st =>
    cases hb : (st == 200) with
    | false => simp [hb]
    | true =>
      cases hk : (k % 10 == 0) with
      | false =>
        have hne : (k % 10 != 0) = true := by
          show (!(k % 10 == 0)) = true
          rw [hk]
          rfl
        simp [hb, hk, hne]
      | true =>
        have hmod : k % 10 = 0 := by simpa using hk
        unfold shouldStopDueToEmptyContent markerFound
        cases hc : checkPageContent g o k with
        | error e => simp [hb, hk, hc, hmod]
        | ok hasContent => cases hasContent <;> simp [hb, hk, hc, hmod]

/-- Without cancellation, the loop starting at `start` with `n` surviving
pages and a failing page `start + n` appends exactly the `n` page URLs in
increasing order and reports no error. -/
theorem generateAux_no_cancel (g : PageRangeGenerator) (o : PageOracle) :
    ∀ (n fuel start : Nat) (acc : List String),
      n + 1 ≤ fuel →
      (∀ k, start ≤ k → k < start + n → pageOK g o k = true) →
      pageOK g o (start + n) = false →
      generateAux g o (fun _ => false) fuel start acc =
        (acc ++ (List.range n).map (fun i => buildPageURL g (start + i)),
          none) := by
  intro n
  induction n with
  | zero =>
    intro fuel start acc hfuel _ hstop
    match fuel, hfuel with
    | fuel + 1, _ =>
      have hcond := shouldStop_iff_not_pageOK g o start
      rw [Nat.add_zero] at hstop
      rw [hstop] at hcond
      simp only [generateAux, Bool.false_eq_true, if_false, hcond,
        Bool.not_false, if_true, List.range_zero, List.map_nil,
        List.append_nil]
  | succ n ih =>
    intro fuel start acc hfuel hok hstop
    match fuel, hfuel with
    | fuel + 1, hfuel =>
      have hok0 : pageOK g o start = true := hok start le_rfl (by omega)
      have hcond := shouldStop_iff_not_pageOK g o start
      rw [hok0] at hcond
      have hrec := ih fuel (start + 1) (acc ++ [buildPageURL g start])
        (by omega) (fun k hk1 hk2 => hok k (by omega) (by omega))
        (by have h : start + 1 + n = start + (n + 1) := by omega
            rw [h]; exact hstop)
      simp only [generateAux, Bool.false_eq_true, if_false, hcond,
        Bool.not_true] at hrec ⊢
      rw [hrec]
      congr 1
      rw [List.append_assoc, List.singleton_append, List.range_succ_eq_map,
        List.map_cons, List.map_map]
      congr 1
      congr 1
      exact listMap_ext _ _ _ (fun i => by
        simp only [Function.comp_apply]
        congr 1
        omega)

/-- With a cancellation signal that first fires at page `start + m`, the
loop returns the `m` accumulated page URLs together with the context
error. -/
theorem generateAux_cancelled (g : PageRangeGenerator) (o : PageOracle)
    (cancel : Nat → Bool) :
    ∀ (m fuel start : Nat) (acc : List String),
      m + 1 ≤ fuel →
      (∀ k, start ≤ k → k < start + m →
        cancel k = false ∧ pageOK g o k = true) →
      cancel (start + m) = true →
      generateAux g o cancel fuel start acc =
        (acc ++ (List.range m).map (fun i => buildPageURL g (start + i)),
          some "context canceled") := by
  intro m
  induction m with
  | zero =>
    intro fuel start acc hfuel _ hcan
    match fuel, hfuel with
    | fuel + 1, _ =>
      rw [Nat.add_zero] at hcan
      simp only [generateAux, hcan, if_true, List.range_zero, List.map_nil,
        List.append_nil]
  | succ m ih =>
    intro fuel start acc hfuel hok hcan
    match fuel, hfuel with
    | fuel + 1, hfuel =>
      obtain ⟨hcan0, hok0⟩ := hok start le_rfl (by omega)
      have hcond := shouldStop_iff_not_pageOK g o start
      rw [hok0] at hcond
      have hrec := ih fuel (start + 1) (acc ++ [buildPageURL g start])
        (by omega) (fun k hk1 hk2 => hok k (by omega) (by omega))
        (by have h : start + 1 + m = start + (m + 1) := by omega
            rw [h]; exact hcan)
      simp only [generateAux, hcan0, Bool.false_eq_true, if_false, hcond,
        Bool.not_true] at hrec ⊢
      rw [hrec]
      congr 1
      rw [List.append_assoc, List.singleton_append, List.range_succ_eq_map,
        List.map_cons, List.map_map]
      congr 1
      congr 1
      exact listMap_ext _ _ _ (fun i => by
        simp only [Function.comp_apply]
        congr 1
        omega)

/-! ## Claim theorems -/

/-- C1 (counterexample): a first stage with neither Generator nor Fetcher,
and a sink missing processor and saver, do NOT make `Run` return an error —
it returns success, contradicting the claim that those invalid
specifications surface a non-nil error from `Run`. -/
theorem c1_counterexample :
    (runModel pipelineNoFirstAdapter "https://example.com").1 = none ∧
    (runModel pipelineNoSaver "https://example.com").1 = none ∧
    savedArticles pipelineNoSaver "https://example.com" = [] :=
  ⟨rfl, rfl, rfl⟩

/-- C1 (amended): `Run` returns a non-nil error exactly when the spec has
zero stages; every other failure — first stage missing both adapters, sink
missing processor or saver, per-URL failures — is absorbed and `Run`
returns success.  (The model assumes every later stage carries a Fetcher;
without one the Go orchestrator deadlocks instead of returning.) -/
theorem c1_run_error_iff_no_steps (p : Pipeline) (baseURL : String)
    (_hwf : ((p.steps.drop 1).all (fun s => s.fetcher.isSome)) = true) :
    (runModel p baseURL).1.isSome = true ↔ p.steps = [] := by
  cases hs : p.steps with
  | nil => simp [runModel, hs]
  | cons s rest => simp [runModel, hs]

/-- C1 witness: the amended equivalence evaluated on a concrete one-step
pipeline. -/
theorem c1_witness :
    (runModel pipelineNoFirstAdapter "https://example.com").1.isSome = true ↔
      pipelineNoFirstAdapter.steps = [] :=
  c1_run_error_iff_no_steps pipelineNoFirstAdapter "https://example.com" rfl

/-- C2: per-item failure isolation at the sink — every URL on which the
processor and the saver both succeed yields a saved article regardless of
failures elsewhere; in the S6 scenario (four URLs, processor failure on
the second only) exactly three articles are saved and `Run` succeeds. -/
theorem c2_sink_per_item_isolation :
    (∀ (proc : String → Except GoErr Article) (save : Article → Option GoErr)
        (w : Nat) (urls : List String) (u : String) (a : Article),
        u ∈ urls → proc u = .ok a → save a = none →
        a ∈ consumeURLs ⟨w, some proc, some save⟩ urls)
    ∧ (consumeURLs consumerS6 urlsS6).length = 3
    ∧ savedArticles pipelineS6 "https://ex.com" =
        [⟨"https://ex.com/u1", "title", "body"⟩,
         ⟨"https://ex.com/u3", "title", "body"⟩,
         ⟨"https://ex.com/u4", "title", "body"⟩]
    ∧ (runModel pipelineS6 "https://ex.com").1 = none := by
  refine ⟨?_, rfl, rfl, rfl⟩
  intro proc save w urls u a hu hproc hsave
  unfold consumeURLs
  exact List.mem_filterMap.mpr
    ⟨u, hu, by simp [processContentURL, hproc, hsave]⟩

/-- C2 witness: the general conjunct applied to the S6 data at the first
URL. -/
theorem c2_witness :
    (⟨"https://ex.com/u1", "title", "body"⟩ : Article) ∈
      consumeURLs ⟨1, some procS6, some (fun _ => none)⟩ urlsS6 :=
  c2_sink_per_item_isolation.1 procS6 (fun _ => none) 1 urlsS6
    "https://ex.com/u1" ⟨"https://ex.com/u1", "title", "body"⟩
    (by decide) rfl rfl

/-- C10: the built-in filters are total — `ShouldKeep` of the base-URL,
already-fetched and contains-path filters never returns an error, and the
base-URL filter keeps any string whose URL parse fails. -/
theorem c10_builtin_filters_never_error :
    ∀ (parse : String → Option String) (fetched : String → Bool)
      (seg u : String),
      (baseURLFilter parse u).2 = none ∧
      (alreadyFetchedFilter fetched u).2 = none ∧
      (containsPathFilter seg u).2 = none ∧
      (parse u = none → baseURLFilter parse u = (true, none)) := by
  intro parse fetched seg u
  refine ⟨?_, rfl, rfl, ?_⟩
  · unfold baseURLFilter
    cases parse u <;> simp
  · intro hp
    unfold baseURLFilter
    rw [hp]

/-- C10 witness: the totality facts evaluated on a concrete failing parse
and concrete seed set. -/
theorem c10_witness :
    (baseURLFilter (fun _ => none) "http://bad url").2 = none ∧
    (alreadyFetchedFilter (fun _ => false) "http://bad url").2 = none ∧
    (containsPathFilter "/blog" "http://bad url").2 = none ∧
    ((fun _ => (none : Option String)) "http://bad url" = none →
      baseURLFilter (fun _ => none) "http://bad url" = (true, none)) :=
  c10_builtin_filters_never_error (fun _ => none) (fun _ => false) "/blog"
    "http://bad url"

/-- C4: the already-fetched filter is effective — whenever it is among a
fetcher's filters, no URL of the seed set appears in a successful fetch
result, and hence none reaches the sink of a pipeline built on that
fetcher. -/
theorem c4_alreadyFetched_filter_effective (f : BasicUrlFetcher)
    (E : String → Bool) (u baseURL nm : String) (w : Nat)
    (hmem : alreadyFetchedFilter E ∈ f.filters) (hE : E u = true) :
    (∀ out, f.fetch baseURL = .ok out → u ∉ out) ∧
    u ∉ sinkURLs [stepOfBasicFetcher nm w f] baseURL := by
  have hdrop : ∀ out, f.fetch baseURL = .ok out → u ∉ out := by
    intro out hout hu
    unfold BasicUrlFetcher.fetch at hout
    cases hfr : f.fetcher baseURL with
    | error e => rw [hfr] at hout; exact absurd hout (by simp)
    | ok us =>
      rw [hfr] at hout
      simp only at hout
      cases hfl : f.filters with
      | nil => rw [hfl] at hmem; simp at hmem
      | cons f0 rest =>
        rw [hfl] at hout
        simp only [List.isEmpty_cons, Bool.false_eq_true, if_false] at hout
        cases happ : applyFilters (f0 :: rest) (extractLocations us) with
        | error e => rw [happ] at hout; exact absurd hout (by simp)
        | ok filtered =>
          rw [happ] at hout
          simp only [Except.ok.injEq] at hout
          subst hout
          have hkeep := shouldKeep_of_mem_applyFilters (f0 :: rest)
            (extractLocations us) filtered u happ hu
          rw [← hfl] at hkeep
          have hall := (shouldKeepURL_eq_true_iff f.filters u).mp hkeep
          have := hall (alreadyFetchedFilter E) hmem
          unfold alreadyFetchedFilter at this
          rw [hE] at this
          simp at this
  refine ⟨hdrop, ?_⟩
  unfold sinkURLs
  simp only [List.foldl_nil]
  unfold firstStepURLs generateOrFetchURLs stepOfBasicFetcher
  simp only
  cases hf : f.fetch baseURL with
  | error e => simp
  | ok out =>
    simp only
    exact hdrop out hf

/-- C4 witness: the guarantee on a concrete fetcher whose source yields a
seeded URL and a fresh one. -/
theorem c4_witness :
    (∀ out, bfC4.fetch "https://ex.com" = .ok out →
      "https://ex.com/a1" ∉ out) ∧
    "https://ex.com/a1" ∉
      sinkURLs [stepOfBasicFetcher "source" 1 bfC4] "https://ex.com" :=
  c4_alreadyFetched_filter_effective bfC4 seedC4 "https://ex.com/a1"
    "https://ex.com" "source" 1 (by simp [bfC4]) rfl

/-- C7: filter composition is short-circuit conjunction — the first
`false` settles the URL regardless of the remaining filters; a URL is kept
iff every filter answers keep with no error; with no filter errors the
fetch returns exactly the URLs passing all filters, in order; a filter
error on any URL aborts the whole fetch with that error wrapped and no
URL list. -/
theorem c7_filter_composition :
    (∀ (f : UrlFilter) (rest : List UrlFilter) (u : String),
        f u = (false, none) → shouldKeepURL (f :: rest) u = (false, none))
    ∧ (∀ (filters : List UrlFilter) (u : String),
        shouldKeepURL filters u = (true, none) ↔
          ∀ f ∈ filters, f u = (true, none))
    ∧ (∀ (bf : BasicUrlFetcher) (baseURL : String) (us : List GoURL),
        bf.fetcher baseURL = .ok us →
        (∀ u ∈ extractLocations us, (shouldKeepURL bf.filters u).2 = none) →
        bf.fetch baseURL =
          .ok ((extractLocations us).filter
            (fun u => (shouldKeepURL bf.filters u).1)))
    ∧ (∀ (bf : BasicUrlFetcher) (baseURL : String) (us : List GoURL)
        (u : String) (e : GoErr),
        bf.fetcher baseURL = .ok us → u ∈ extractLocations us →
        (shouldKeepURL bf.filters u).2 = some e →
        ∃ e2, bf.fetch baseURL = .error ("filter error: " ++ e2) ∧
          ∃ u2 ∈ extractLocations us,
            (shouldKeepURL bf.filters u2).2 = some e2) := by
  refine ⟨?_, shouldKeepURL_eq_true_iff, ?_, ?_⟩
  · intro f rest u h
    simp [shouldKeepURL, h]
  · intro bf baseURL us hf hne
    unfold BasicUrlFetcher.fetch
    rw [hf]
    simp only
    cases hfl : bf.filters with
    | nil =>
      simp only [List.isEmpty_nil, if_true]
      congr 1
      have : ∀ u, (shouldKeepURL ([] : List UrlFilter) u).1 = true := by
        intro u; rfl
      conv_rhs => rw [List.filter_congr (fun u _ => this u)]
      simp
    | cons f0 rest =>
      simp only [List.isEmpty_cons, Bool.false_eq_true, if_false]
      rw [← hfl, applyFilters_ok_of_noError bf.filters _ hne]
  · intro bf baseURL us u e hf hu he
    cases hfl : bf.filters with
    | nil => rw [hfl] at he; simp [shouldKeepURL] at he
    | cons f0 rest =>
      obtain ⟨e2, hap, u2, hu2, he2⟩ :=
        applyFilters_error_of_mem bf.filters (extractLocations us) u e hu he
      refine ⟨e2, ?_, u2, hu2, by rw [← hfl]; exact he2⟩
      unfold BasicUrlFetcher.fetch
      rw [hf]
      simp only
      rw [hfl]
      simp only [List.isEmpty_cons, Bool.false_eq_true, if_false]
      rw [← hfl, hap]

/-- C7 witness: the no-error conjunct evaluated on a concrete fetcher with
a contains-path filter that drops one of two URLs. -/
theorem c7_witness :
    bfC7.fetch "https://ex.com" =
      .ok ((extractLocations
          [{ location := "https://ex.com/blog/a1", title := "" },
           { location := "https://ex.com/about", title := "" }]).filter
        (fun u => (shouldKeepURL bfC7.filters u).1)) :=
  c7_filter_composition.2.2.1 bfC7 "https://ex.com"
    [{ location := "https://ex.com/blog/a1", title := "" },
     { location := "https://ex.com/about", title := "" }]
    rfl (by decide)

/-- C3: the page-range generator emits exactly the page URLs for pages
`1..K`, in increasing order, where `K` is the largest page such that every
HEAD through `K` returned 200 and no content check at a multiple of 10 up
to `K` found an empty-content marker (the hypotheses pin this `K`: all
pages through `K` pass and page `K+1` fails). -/
theorem c3_pageRangeGenerator_emits_exact_range (g : PageRangeGenerator)
    (o : PageOracle) (K fuel : Nat)
    (hok : ∀ k, 1 ≤ k → k ≤ K → pageOK g o k = true)
    (hstop : pageOK g o (K + 1) = false)
    (hfuel : K + 1 ≤ fuel) :
    generate g o (fun _ => false) fuel =
      ((List.range K).map (fun i => buildPageURL g (1 + i)), none) := by
  unfold generate
  have h := generateAux_no_cancel g o K fuel 1 [] hfuel
    (fun k hk1 hk2 => hok k hk1 (by omega))
    (by have h1K : 1 + K = K + 1 := by omega
        rw [h1K]; exact hstop)
  simpa using h

/-- C3 witness: with every HEAD 200 and the default marker appearing (in
mixed case) in the page-10 body, exactly pages 1–9 are emitted. -/
theorem c3_witness :
    generate prgC3 oraC3 (fun _ => false) 20 =
      ((List.range 9).map (fun i => buildPageURL prgC3 (1 + i)), none) :=
  c3_pageRangeGenerator_emits_exact_range prgC3 oraC3 9 20
    (by intro k h1 h2; interval_cases k <;> decide) (by decide) (by decide)

/-- C9 (counterexample): cancelling the generator at page 3 makes
`Generate` return the two accumulated page URLs with the Cancelled error,
but the orchestrator then discards them — nothing reaches the sink and no
article is saved, contradicting the claim that the returned URLs are still
emitted downstream; `Run` does return success. -/
theorem c9_counterexample :
    generate prgC9 oraC9 cancelAt3 20 =
      (["https://ex.com/page/1", "https://ex.com/page/2"],
        some "context canceled")
    ∧ sinkURLs pipelineC9.steps "https://ex.com" = []
    ∧ savedArticles pipelineC9 "https://ex.com" = []
    ∧ (runModel pipelineC9 "https://ex.com").1 = none :=
  ⟨rfl, rfl, rfl, rfl⟩

/-- C9 (amended): on cancellation `Generate` does return the page URLs
accumulated so far together with the Cancelled signal, but the
orchestrator treats any generator error — including Cancelled — as a
first-stage failure: the returned URLs are discarded, the stage emits
nothing before its output queue is closed, and `Run` returns success. -/
theorem c9_cancellation_behavior :
    (∀ (g : PageRangeGenerator) (o : PageOracle) (cancel : Nat → Bool)
        (m fuel : Nat),
        m + 1 ≤ fuel →
        (∀ k, 1 ≤ k → k < 1 + m → cancel k = false ∧ pageOK g o k = true) →
        cancel (1 + m) = true →
        generate g o cancel fuel =
          ((List.range m).map (fun i => buildPageURL g (1 + i)),
            some "context canceled"))
    ∧ (∀ (gen : Unit → List String × Option GoErr)
        (fet : Option (String → List String × Option GoErr))
        (nm : String) (w : Nat) (urls : List String) (e : GoErr)
        (baseURL : String),
        gen () = (urls, some e) →
        firstStepURLs ⟨nm, w, some gen, fet⟩ baseURL = [])
    ∧ (∀ (p : Pipeline) (baseURL : String), p.steps ≠ [] →
        (runModel p baseURL).1 = none) := by
  refine ⟨?_, ?_, ?_⟩
  · intro g o cancel m fuel hfuel hpre hcan
    unfold generate
    have h := generateAux_cancelled g o cancel m fuel 1 [] hfuel hpre hcan
    simpa using h
  · intro gen fet nm w urls e baseURL hgen
    unfold firstStepURLs generateOrFetchURLs
    simp [hgen]
  · intro p baseURL hne
    cases hs : p.steps with
    | nil => exact absurd hs hne
    | cons s rest => simp [runModel, hs]

/-- C9 witness: the cancellation conjunct evaluated on the concrete
always-200 oracle with cancellation from page 3, yielding pages 1–2. -/
theorem c9_witness :
    generate prgC9 oraC9 cancelAt3 20 =
      ((List.range 2).map (fun i => buildPageURL prgC9 (1 + i)),
        some "context canceled") :=
  c9_cancellation_behavior.1 prgC9 oraC9 cancelAt3 2 20 (by decide)
    (by intro k h1 h2; interval_cases k <;> decide) (by decide)

/-- C5 (counterexample): a well-formed but empty plain urlset makes
`ParseFromURL` return success with an empty entry list, contradicting the
claim that zero collected URLs always yield an error and that success
implies a non-empty list. -/
theorem c5_counterexample :
    parseFromURL (fun _ => .ok (.urlset [])) 1
      "https://example.com/sitemap.xml" = .ok [] := rfl

/-- C5 (amended): for the sitemap-index branch, `ParseFromURL` succeeds
iff at least one entry is collected across the children (child errors
contribute nothing): an empty index and an index whose children yield no
entries return an error, any success carries a non-empty entry list, and
a non-empty collection is returned as-is; a plain urlset is returned as
parsed, possibly empty, with success. -/
theorem c5_success_iff_nonempty_for_index :
    ∀ (fetchDoc : String → Except GoErr SitemapDoc) (fuel : Nat)
      (u : String),
      (∀ locs es, fetchDoc u = .ok (.index locs) →
          parseFromURL fetchDoc (fuel + 1) u = .ok es → es ≠ [])
      ∧ (∀ locs, fetchDoc u = .ok (.index locs) →
          ((∃ es, parseFromURL fetchDoc (fuel + 1) u = .ok es) ↔
            (parseSitemapIndexLocs locs).flatMap (fun su =>
                match parseFromURL fetchDoc fuel su with
                | .error _ => []
                | .ok es => es) ≠ []))
      ∧ (∀ locs, fetchDoc u = .ok (.index locs) →
          (parseSitemapIndexLocs locs).flatMap (fun su =>
              match parseFromURL fetchDoc fuel su with
              | .error _ => []
              | .ok es => es) ≠ [] →
          parseFromURL fetchDoc (fuel + 1) u = .ok
            ((parseSitemapIndexLocs locs).flatMap (fun su =>
              match parseFromURL fetchDoc fuel su with
              | .error _ => []
              | .ok es => es)))
      ∧ (∀ entries, fetchDoc u = .ok (.urlset entries) →
          parseFromURL fetchDoc (fuel + 1) u = .ok
            (parseSitemapEntries entries)) := by
  intro fetchDoc fuel u
  have hcollect : ∀ locs, fetchDoc u = .ok (.index locs) →
      (parseSitemapIndexLocs locs).flatMap (fun su =>
          match parseFromURL fetchDoc fuel su with
          | .error _ => []
          | .ok es => es) ≠ [] →
      parseFromURL fetchDoc (fuel + 1) u = .ok
        ((parseSitemapIndexLocs locs).flatMap (fun su =>
          match parseFromURL fetchDoc fuel su with
          | .error _ => []
          | .ok es => es)) := by
    intro locs hdoc hne
    have hlocs : ¬((parseSitemapIndexLocs locs).isEmpty = true) := by
      intro h
      rw [List.isEmpty_iff] at h
      rw [h] at hne
      exact hne rfl
    simp only [parseFromURL]
    rw [hdoc]
    simp only
    rw [if_neg hlocs, if_neg (by
      intro h
      rw [List.isEmpty_iff] at h
      exact hne h)]
  refine ⟨?_, ?_, hcollect, ?_⟩
  · intro locs es hdoc hok
    unfold parseFromURL at hok
    rw [hdoc] at hok
    simp only at hok
    split at hok
    · exact absurd hok (by simp)
    · split at hok
      · exact absurd hok (by simp)
      · rename_i hne
        simp only [Except.ok.injEq] at hok
        subst hok
        intro h0
        rw [h0] at hne
        simp at hne
  · intro locs hdoc
    constructor
    · rintro ⟨es, hok⟩
      unfold parseFromURL at hok
      rw [hdoc] at hok
      simp only at hok
      split at hok
      · exact absurd hok (by simp)
      · split at hok
        · exact absurd hok (by simp)
        · rename_i hlocs hne
          intro h0
          rw [h0] at hne
          simp at hne
    · intro hne
      exact ⟨_, hcollect locs hdoc hne⟩
  · intro entries hdoc
    unfold parseFromURL
    rw [hdoc]

/-- C5 witness: the index conjunct evaluated on a concrete index with one
child urlset holding one entry. -/
theorem c5_witness :
    [({ location := "https://ex.com/a1", lastMod := "", priority := "",
        changeFreq := "" } : Entry)] ≠ ([] : List Entry) :=
  (c5_success_iff_nonempty_for_index fetchDocC5 1
      "https://ex.com/sitemap-index.xml").1
    ["https://ex.com/s1.xml"]
    [{ location := "https://ex.com/a1", lastMod := "", priority := "",
       changeFreq := "" }] rfl rfl

/-- C6 (counterexample): a 200 body that merely CONTAINS
`"Not Acceptable"` — its trimmed content is neither empty nor equal to the
marker — is still rejected as a soft error, contradicting the claim that
the soft error fires only on trimmed equality or emptiness. -/
theorem c6_counterexample :
    fetchHTML (fun _ => .ok (200, bodyC6)) "https://ex.com/a" =
      .error "server returned error or empty response (status: 200)"
    ∧ goTrimSpace bodyC6 ≠ "Not Acceptable"
    ∧ goTrimSpace bodyC6 ≠ "" :=
  ⟨rfl, by decide, by decide⟩

/-- C6 (amended): on a 200 response the processor fails with the soft
error exactly when the body contains `"Not Acceptable"` as a substring or
is empty after trimming; every other 200 body is passed unchanged to
content extraction. -/
theorem c6_soft_error_classification :
    ∀ (get : String → Except GoErr (Nat × String)) (url body : String)
      (eTx eTi : String → Except GoErr String),
      get url = .ok (200, body) →
      (fetchHTML get url =
          if goContains body "Not Acceptable" || goTrimSpace body = "" then
            .error "server returned error or empty response (status: 200)"
          else .ok body)
      ∧ (goContains body "Not Acceptable" = false → goTrimSpace body ≠ "" →
          processContent get eTx eTi url =
            match eTx body with
            | .error e => .error ("failed to extract text: " ++ e)
            | .ok text =>
              match eTi body with
              | .error e => .error ("failed to extract title: " ++ e)
              | .ok title => .ok { url := url, title := title, text := text }) := by
  intro get url body eTx eTi hget
  have h1 : fetchHTML get url =
      if goContains body "Not Acceptable" || goTrimSpace body = "" then
        .error "server returned error or empty response (status: 200)"
      else .ok body := by
    unfold fetchHTML
    rw [hget]
    have hs : ("server returned error or empty response (status: " ++
        toString (200 : Nat) ++ ")") =
        "server returned error or empty response (status: 200)" := rfl
    simp [hs]
  refine ⟨h1, ?_⟩
  intro hc ht
  unfold processContent
  rw [h1]
  simp [hc, ht]

/-- C6 witness: on an ordinary 200 body the classification reduces to the
pass-through branch. -/
theorem c6_witness :
    fetchHTML (fun _ => .ok (200, "<html>fine</html>")) "https://ex.com/a" =
      (if goContains "<html>fine</html>" "Not Acceptable" ||
          goTrimSpace "<html>fine</html>" = "" then
        .error "server returned error or empty response (status: 200)"
      else .ok "<html>fine</html>") :=
  (c6_soft_error_classification (fun _ => .ok (200, "<html>fine</html>"))
    "https://ex.com/a" "<html>fine</html>" (fun _ => .ok "t")
    (fun _ => .ok "x") rfl).1

/-- C8 (counterexample): in a three-stage pipeline with worker counts 1,
60, 1 and one sink worker, the code sizes channel 0 at 100 — not
`max(2·60, 100) = 120` as the claim's consumer-based rule requires — and
channel 1 at 120 (twice its producer's 60 workers), not twice its reader's
1 worker. -/
theorem c8_counterexample :
    (createChannelCapacities pipelineC8).1 = [100, 120, 2]
    ∧ (createChannelCapacities pipelineC8).2 = 2
    ∧ (100 : Nat) ≠ max (2 * 60) 100
    ∧ (120 : Nat) ≠ 2 * 1 := by
  refine ⟨by decide, by decide, by decide, by decide⟩

/-- C8 (amended): channel `i` is sized from stage `i`'s own worker count
(its producer): capacity `2·steps[i].worker_count` for `i > 0` and a fixed
100 for `i = 0`; the sink channel has capacity twice the sink's worker
count. -/
theorem c8_channel_capacities (p : Pipeline) (i : Nat)
    (hi : i < p.steps.length) :
    (createChannelCapacities p).1.getD i 0 =
      (if i = 0 then 100 else 2 * (p.steps.getD i default).workerCount)
    ∧ (createChannelCapacities p).2 =
      2 * p.contentConsumer.workerCount := by
  constructor
  · unfold createChannelCapacities
    simp only
    rw [List.getD_eq_getElem?_getD, List.getElem?_map,
      List.getElem?_range hi]
    simp
  · rfl

/-- C8 witness: the capacity rule evaluated at channel 1 of the concrete
three-stage pipeline. -/
theorem c8_witness :
    (createChannelCapacities pipelineC8).1.getD 1 0 =
      (if 1 = 0 then 100
        else 2 * (pipelineC8.steps.getD 1 default).workerCount)
    ∧ (createChannelCapacities pipelineC8).2 =
      2 * pipelineC8.contentConsumer.workerCount :=
  c8_channel_capacities pipelineC8 1 (by decide)

end BlogSearch